import Mathlib

/-!
Shallow embedding of the BlockTheTweet inference server (src/src/main.cpp):
the text preprocessing pipeline (tokenizeText, lines 153-190), the inference
wrapper (predictText, lines 192-215), the content fingerprint call site
(line 236) and the POST request handler (postClassifyText, lines 219-251).

External collaborators are modelled as function parameters:
the Snowball stemmer (sb_stemmer_stem, called via stemWord) as a function
from strings to strings, the torch scoring model (MODEL.forward) as a
function from input sequences to either a score plus measured latency or a
failure, and the vendored xxhash library as a function from byte content
plus seed to a 64 bit value. The vocabulary WORD_INDEX, a JSON object
loaded at startup that maps words to integer ids, is modelled as an
association list.
-/

/-- Whitespace characters recognised by operator shift-in on an istream in
the classic C locale: space, tab, newline, vertical tab, form feed and
carriage return. -/
def isSpaceChar (c : Char) : Bool :=
  c = ' ' || c = '\t' || c = '\n' || c = '\x0b' || c = '\x0c' || c = '\r'

/-- Word extraction loop, first parameter the remaining characters, second
the (reversed) characters of the word currently being read. Models the C++
loop while stream shifts a word out of the text: leading whitespace is
skipped and each maximal run of non-whitespace characters becomes one word. -/
def wordsAux : List Char → List Char → List String
  | [], cur => if cur = [] then [] else [⟨cur.reverse⟩]
  | c :: cs, cur =>
      if isSpaceChar c then
        if cur = [] then wordsAux cs [] else (⟨cur.reverse⟩ : String) :: wordsAux cs []
      else wordsAux cs (c :: cur)

/-- Splitting of the raw text into whitespace-separated word tokens, as
performed by the istringstream extraction in tokenizeText (line 160). No
punctuation stripping happens beyond whitespace splitting. -/
def splitWords (s : String) : List String :=
  wordsAux s.data []

/-- ASCII case fold of one character, as tolower does in the C locale:
letters A to Z map to their lowercase forms, every other character is
unchanged. -/
def lowerChar (c : Char) : Char :=
  if 'A' ≤ c ∧ c ≤ 'Z' then Char.ofNat (c.toNat + 32) else c

/-- Lowercasing loop over the characters of a word (line 162 of main.cpp). -/
def asciiLower (s : String) : String :=
  ⟨s.data.map lowerChar⟩

/-- Lookup in the vocabulary index, modelling WORD_INDEX.find (line 167):
the first binding of the word, if any. -/
def lookupVocab : List (String × Int) → String → Option Int
  | [], _ => none
  | (k, v) :: rest, w => if k = w then some v else lookupVocab rest w

/-- Identifier assigned to a single raw word token: lowercase it, stem it,
look the stemmed form up in the vocabulary, and fall back to 0 when the
word is absent (lines 161-172 of main.cpp). -/
def wordId (vocab : List (String × Int)) (stem : String → String) (w : String) : Int :=
  match lookupVocab vocab (stem (asciiLower w)) with
  | some i => i
  | none => 0

/-- Tokenization loop of tokenizeText (lines 160-173): for each extracted
word, lowercase every character, stem the word, look it up in the
vocabulary and append the resulting id (or 0 for unknown words) to the
accumulator, in extraction order. -/
def tokenizeLoop (vocab : List (String × Int)) (stem : String → String) :
    List String → List Int → List Int
  | [], acc => acc
  | w :: ws, acc =>
      let lowered := asciiLower w
      let stemmed := stem lowered
      match lookupVocab vocab stemmed with
      | some i => tokenizeLoop vocab stem ws (acc ++ [i])
      | none => tokenizeLoop vocab stem ws (acc ++ [0])

/-- Length adjustment of tokenizeText (lines 175-182): a vector longer than
max_length is resized down (truncated to its first max_length entries), a
shorter one is resized up by padding with 0 on the right. -/
def padTruncate (ids : List Int) (maxLen : Nat) : List Int :=
  if ids.length > maxLen then ids.take maxLen
  else if ids.length < maxLen then ids ++ List.replicate (maxLen - ids.length) 0
  else ids

/-- Preprocessing applied to an already-split list of word tokens: the
tokenization loop followed by the length adjustment. -/
def preprocessWords (vocab : List (String × Int)) (stem : String → String)
    (ws : List String) (maxLen : Nat) : List Int :=
  padTruncate (tokenizeLoop vocab stem ws []) maxLen

/-- Embedding of tokenizeText (lines 153-190 of main.cpp): split the raw
text on whitespace, run the tokenization loop, then truncate or pad to the
requested length. The console printing of the first ten entries (lines
184-187) is output only and is not modelled. -/
def tokenizeText (vocab : List (String × Int)) (stem : String → String)
    (text : String) (maxLen : Nat) : List Int :=
  preprocessWords vocab stem (splitWords text) maxLen

example : splitWords "" = [] := rfl
example : splitWords "  a  bc " = ["a", "bc"] := rfl
example : asciiLower "AbC" = "abc" := rfl
example : tokenizeText [("ab", 7)] (fun w => w) "AB zz" 4 = [7, 0, 0, 0] := rfl
example : tokenizeText [] (fun w => w) "a b c" 2 = [0, 0] := rfl

/-- UTF-8 encoding of a single character as a list of bytes, each byte a
natural number below 256. -/
def utf8Bytes (c : Char) : List Nat :=
  let n := c.toNat
  if n < 128 then [n]
  else if n < 2048 then [192 + n / 64, 128 + n % 64]
  else if n < 65536 then [224 + n / 4096, 128 + (n / 64) % 64, 128 + n % 64]
  else [240 + n / 262144, 128 + (n / 4096) % 64, 128 + (n / 64) % 64, 128 + n % 64]

/-- Byte content of a string, the data XXH64 is applied to at line 236 of
main.cpp (text.c_str together with text.size denotes exactly the UTF-8
bytes of the string). -/
def strBytes (s : String) : List Nat :=
  s.data.foldr (fun c acc => utf8Bytes c ++ acc) []

example : strBytes "hi" = [104, 105] := rfl

/-- Modelled from the spec: the XXH64 function itself lives in the vendored
xxhash library (libs/xxhash), which is not under src/. The spec describes
it only as a deterministic, non-cryptographic 64 bit hash over the raw byte
content together with a seed, so it is modelled as an arbitrary pure
function from byte content and seed to a natural number (the 64 bit range
of its result plays no role in any claim). -/
def XXHash64Fn : Type :=
  List Nat → Nat → Nat

/-- Content fingerprint as computed at line 236 of main.cpp: the external
64 bit hash applied to the byte content of the raw text with the fixed
seed 0. -/
def fingerprint (hash : XXHash64Fn) (text : String) : Nat :=
  hash (strBytes text) 0

/-- Result of one call into the external scoring model (MODEL.forward plus
the surrounding clock reads, lines 199-204 of main.cpp): either the scalar
score it returns together with the measured wall clock nanoseconds, or a
failure when the forward computation throws. The numeric type of the
scalar is irrelevant to every claim, so the float is modelled by an
integer placeholder. -/
def ModelForward : Type :=
  List Int → Except Unit (Int × Int)

/-- Prediction struct (lines 18-34 of main.cpp) restricted to the fields
the handler writes and serialises. In C++ the numeric members text_hash,
confidence and nanosecond start out uninitialised (indeterminate) while the
string member is default constructed empty; an Option value of none models
an indeterminate member that was never assigned. The id and timestamp
members are only used by the commented-out database sink and are omitted. -/
structure Prediction where
  text_hash : Option Nat := none
  text : String := ""
  confidence : Option Int := none
  nanosecond : Option Int := none
deriving DecidableEq

/-- Outcome of the try block of predictText once the model call result is
known (lines 199-214 of main.cpp): on success the prediction receives the
raw text, the scalar confidence and the measured nanoseconds and the
function returns true; when the forward computation throws, the catch
clause returns false and the prediction is left exactly as it was. -/
def applyForward (r : Except Unit (Int × Int)) (text : String)
    (p : Prediction) : Bool × Prediction :=
  match r with
  | Except.ok (conf, ns) =>
      (true, { p with text := text, confidence := some conf, nanosecond := some ns })
  | Except.error _ => (false, p)

/-- Embedding of predictText (lines 192-215 of main.cpp): tokenize the text
with the hardcoded length 295, invoke the external model and fill in the
prediction, returning false if and only if the model call failed. Tensor
packing and unpacking around the forward call is absorbed into the
ModelForward parameter. -/
def predictText (forward : ModelForward) (vocab : List (String × Int))
    (stem : String → String) (text : String) (p : Prediction) :
    Bool × Prediction :=
  applyForward (forward (tokenizeText vocab stem text 295)) text p

/-- JSON values, as produced by nlohmann parse on a request body. -/
inductive JsonVal where
  | null : JsonVal
  | bool : Bool → JsonVal
  | num : Int → JsonVal
  | str : String → JsonVal
  | arr : List JsonVal → JsonVal
  | obj : List (String × JsonVal) → JsonVal

/-- Lookup of a field in the binding list of a JSON object. -/
def lookupField : List (String × JsonVal) → String → Option JsonVal
  | [], _ => none
  | (k, v) :: rest, name => if k = name then some v else lookupField rest name

/-- Evaluation of the C++ statement std::string text = reqBody at key text
(line 232 of main.cpp) under nlohmann semantics: when reqBody is an object
holding a string at that key the statement yields that string; in every
other case the statement throws and control reaches the outer catch of the
handler. Throwing cases: a missing key makes the bracket operator insert a
JSON null whose string conversion throws a type error, a non-string value
at the key makes the string conversion throw, and a non-object non-null
reqBody makes the bracket operator itself throw (a null reqBody is turned
into an object by the bracket operator and then behaves like the missing
key case). -/
def extractTextField : JsonVal → Option String
  | JsonVal.obj fields =>
      match lookupField fields "text" with
      | some (JsonVal.str s) => some s
      | _ => none
  | _ => none

/-- Body of an HTTP response produced by the handler, kept structured
instead of serialised: either the envelope built by constructResponse
(lines 124-130 of main.cpp), carrying a status code and a message, or the
prediction data built by toResponseData (lines 26-33), carrying the four
serialised fields of the Prediction struct. -/
inductive RespBody where
  | envelope : Nat → String → RespBody
  | predictionData : Option Nat → String → Option Int → Option Int → RespBody
deriving DecidableEq

/-- Status and body of an HTTP response. -/
structure HttpResponse where
  status : Nat
  body : RespBody
deriving DecidableEq

/-- Record of which external pipeline steps a handler run invoked:
the raw text the fingerprinter hashed, if it ran, and the token sequence
the model forward computation received, if it ran. -/
structure HandlerTrace where
  hashedText : Option String := none
  forwardInput : Option (List Int) := none
deriving DecidableEq

/-- Embedding of postClassifyText (lines 219-251 of main.cpp). The handler
input is the result of nlohmann parse on the request body: none when the
body is absent or not valid JSON (parse throws, the inner catch answers
400 Bad Request), some value otherwise. With a parsed body, the text field
is extracted; if that extraction throws (see extractTextField) the outer
catch answers 500 Internal Server Error. Otherwise the text is hashed into
a fresh prediction, predictText runs, and the handler answers 200 with the
serialised prediction while ignoring the boolean result of predictText, so
a model failure still produces a 200 response whose confidence and
nanosecond members were never assigned. The returned trace records the
fingerprinter and model invocations of the run. -/
def postClassifyText (hash : XXHash64Fn) (forward : ModelForward)
    (vocab : List (String × Int)) (stem : String → String)
    (parsedBody : Option JsonVal) : HttpResponse × HandlerTrace :=
  match parsedBody with
  | none =>
      ({ status := 400, body := RespBody.envelope 400 "Bad Request" }, {})
  | some reqBody =>
      match extractTextField reqBody with
      | none =>
          ({ status := 500, body := RespBody.envelope 500 "Internal Server Error" }, {})
      | some text =>
          let text_hash := fingerprint hash text
          let p0 : Prediction := { text_hash := some text_hash }
          let r := predictText forward vocab stem text p0
          ({ status := 200,
             body := RespBody.predictionData r.2.text_hash r.2.text
               r.2.confidence r.2.nanosecond },
           { hashedText := some text,
             forwardInput := some (tokenizeText vocab stem text 295) })

example :
    (postClassifyText (fun _ _ => 0) (fun _ => Except.error ()) [] (fun w => w)
      none).1.status = 400 := rfl
example :
    (postClassifyText (fun _ _ => 0) (fun _ => Except.error ()) [] (fun w => w)
      (some (JsonVal.obj []))).1.status = 500 := rfl
example :
    (postClassifyText (fun bs _ => bs.length) (fun _ => Except.ok (1, 2)) []
      (fun w => w) (some (JsonVal.obj [("text", JsonVal.str "hi")]))).1 =
    { status := 200,
      body := RespBody.predictionData (some 2) "hi" (some 1) (some 2) } := rfl

lemma tokenizeLoop_eq_append_map (vocab : List (String × Int))
    (stem : String → String) (ws : List String) (acc : List Int) :
    tokenizeLoop vocab stem ws acc = acc ++ ws.map (wordId vocab stem) := by
  induction ws generalizing acc with
  | nil => simp [tokenizeLoop]
  | cons w rest ih =>
      cases h : lookupVocab vocab (stem (asciiLower w)) with
      | none => simp [tokenizeLoop, h, ih, wordId]
      | some i => simp [tokenizeLoop, h, ih, wordId]

lemma padTruncate_eq (ids : List Int) (maxLen : Nat) :
    padTruncate ids maxLen =
      ids.take maxLen ++ List.replicate (maxLen - ids.length) 0 := by
  unfold padTruncate
  rcases Nat.lt_trichotomy maxLen ids.length with h | h | h
  · rw [if_pos h]
    have : maxLen - ids.length = 0 := Nat.sub_eq_zero_of_le (Nat.le_of_lt h)
    simp [this]
  · rw [if_neg (by omega), if_neg (by omega)]
    simp [h, List.take_of_length_le (Nat.le_of_eq h.symm)]
  · rw [if_neg (by omega), if_pos h]
    rw [List.take_of_length_le (Nat.le_of_lt h)]

/-- Compositional form of the preprocessor: the word ids in token order,
truncated to the target length and right padded with zeros. -/
lemma tokenizeText_eq (vocab : List (String × Int)) (stem : String → String)
    (text : String) (maxLen : Nat) :
    tokenizeText vocab stem text maxLen =
      ((splitWords text).map (wordId vocab stem)).take maxLen ++
        List.replicate (maxLen - (splitWords text).length) 0 := by
  unfold tokenizeText preprocessWords
  rw [tokenizeLoop_eq_append_map, List.nil_append, padTruncate_eq,
    List.length_map]

lemma preprocessWords_eq (vocab : List (String × Int)) (stem : String → String)
    (ws : List String) (maxLen : Nat) :
    preprocessWords vocab stem ws maxLen =
      (ws.map (wordId vocab stem)).take maxLen ++
        List.replicate (maxLen - ws.length) 0 := by
  unfold preprocessWords
  rw [tokenizeLoop_eq_append_map, List.nil_append, padTruncate_eq,
    List.length_map]

/-- C3: for every vocabulary, stemmer, raw text and configured target
length, the sequence returned by the preprocessor has length exactly the
target length. -/
theorem c3_preprocess_length_exact (vocab : List (String × Int))
    (stem : String → String) (text : String) (L : Nat) :
    (tokenizeText vocab stem text L).length = L := by
  rw [tokenizeText_eq]
  simp only [List.length_append, List.length_take, List.length_map,
    List.length_replicate]
  omega

/-- C4: a word token whose stemmed lowercase form is absent from the
vocabulary index contributes the id 0 at its position of the preprocessor
output, never any other id. -/
theorem c4_unknown_word_maps_to_zero (vocab : List (String × Int))
    (stem : String → String) (text : String) (L i : Nat) (w : String)
    (hw : (splitWords text)[i]? = some w) (hL : i < L)
    (hlook : lookupVocab vocab (stem (asciiLower w)) = none) :
    (tokenizeText vocab stem text L)[i]? = some 0 := by
  have hn : i < (splitWords text).length := by
    rcases List.getElem?_eq_some_iff.mp hw with ⟨h, _⟩
    exact h
  rw [tokenizeText_eq]
  rw [List.getElem?_append_left (by
    simp only [List.length_take, List.length_map]; omega)]
  rw [List.getElem?_take_of_lt hL, List.getElem?_map, hw]
  simp [wordId, hlook]

/-- C5: when the whitespace-split token count of the raw text exceeds the
target length, the preprocessor output equals the preprocessing of only the
first L whitespace-split tokens: the tail is dropped and the first L ids
are kept in order. -/
theorem c5_truncation_keeps_first_tokens (vocab : List (String × Int))
    (stem : String → String) (text : String) (L : Nat)
    (h : (splitWords text).length > L) :
    tokenizeText vocab stem text L =
      preprocessWords vocab stem ((splitWords text).take L) L := by
  rw [tokenizeText_eq, preprocessWords_eq]
  have h1 : L - (splitWords text).length = 0 := by omega
  have h2 : min L (splitWords text).length = L := by omega
  simp [List.map_take, List.take_take, List.length_take, h1, h2]

/-- C6: when the whitespace-split token count n of the raw text is below
the target length, the preprocessor output is the looked-up ids in original
token order followed by exactly L - n trailing zeros. -/
theorem c6_short_input_right_padded (vocab : List (String × Int))
    (stem : String → String) (text : String) (L : Nat)
    (h : (splitWords text).length < L) :
    tokenizeText vocab stem text L =
      (splitWords text).map (wordId vocab stem) ++
        List.replicate (L - (splitWords text).length) 0 := by
  rw [tokenizeText_eq]
  rw [List.take_of_length_le (by simp only [List.length_map]; omega)]

/-- C7: the content fingerprint is a pure function of the raw text bytes
computed by the external 64 bit hash with the fixed seed 0; for every hash
function, two texts with identical byte content receive identical
fingerprints. -/
theorem c7_fingerprint_pure_of_bytes (hash : XXHash64Fn) (t1 t2 : String)
    (h : strBytes t1 = strBytes t2) :
    fingerprint hash t1 = fingerprint hash t2 ∧
      fingerprint hash t1 = hash (strBytes t1) 0 := by
  unfold fingerprint
  exact ⟨by rw [h], rfl⟩

theorem c7_fingerprint_pure_of_bytes_witness :
    fingerprint (fun bs seed => bs.length + seed) "ab" =
      fingerprint (fun bs seed => bs.length + seed) "ab" ∧
    fingerprint (fun bs seed => bs.length + seed) "ab" =
      (fun (bs : List Nat) (seed : Nat) => bs.length + seed) (strBytes "ab") 0 :=
  c7_fingerprint_pure_of_bytes (fun bs seed => bs.length + seed) "ab" "ab" rfl

/-- C8: preprocessing the empty string yields the all-zero sequence of the
requested length for every vocabulary and stemmer, and predictText still
invokes the model forward computation, on the all-zero sequence of the
hardcoded length 295 (its outcome is exactly the outcome of applying the
forward result, so there is no short-circuit before inference). -/
theorem c8_empty_input_all_zeros_still_inferred (vocab : List (String × Int))
    (stem : String → String) (L : Nat) :
    tokenizeText vocab stem "" L = List.replicate L 0 ∧
      ∀ (forward : ModelForward) (p : Prediction),
        predictText forward vocab stem "" p =
          applyForward (forward (List.replicate 295 0)) "" p := by
  have h0 : splitWords "" = [] := rfl
  have hz : ∀ M : Nat, tokenizeText vocab stem "" M = List.replicate M 0 := by
    intro M
    rw [tokenizeText_eq, h0]
    simp
  refine ⟨hz L, fun forward p => ?_⟩
  unfold predictText
  rw [hz 295]

/-- C9: the preprocessor applies its steps in the fixed order: the raw text
is split on whitespace into word tokens, each token is lowercased character
by character with the ASCII case fold and only then stemmed, the stemmed
form is looked up in the vocabulary with fallback id 0, and the resulting
ids are collected in original token order before the length adjustment. -/
theorem c9_preprocess_step_order (vocab : List (String × Int))
    (stem : String → String) (text : String) (L : Nat) :
    tokenizeText vocab stem text L =
      padTruncate
        ((splitWords text).map (fun w =>
          match lookupVocab vocab (stem (asciiLower w)) with
          | some i => i
          | none => 0)) L := by
  unfold tokenizeText preprocessWords
  rw [tokenizeLoop_eq_append_map, List.nil_append]
  rfl

/-- C10: for one raw text and two target lengths L and M with L at most M,
the preprocessor output for length L is exactly the first L entries of the
output for length M: truncation and padding are prefix compatible across
configured lengths. -/
theorem c10_prefix_compatible_lengths (vocab : List (String × Int))
    (stem : String → String) (text : String) (L M : Nat) (h : L ≤ M) :
    tokenizeText vocab stem text L =
      (tokenizeText vocab stem text M).take L := by
  rw [tokenizeText_eq, tokenizeText_eq, List.take_append_eq_append_take,
    List.take_take, List.take_replicate, List.length_take, List.length_map]
  have hmin : min L M = L := by omega
  rw [hmin]
  congr 1
  have hcount :
      min (L - min M (splitWords text).length)
        (M - (splitWords text).length) =
      L - (splitWords text).length := by omega
  rw [hcount]

/-- C1 failing input: a valid POST body whose text field is the string
hello, with the external model forward computation always throwing. The
handler answers 200 with a serialised Prediction whose confidence and
nanosecond members were never assigned (the boolean failure result of
predictText is discarded at line 239 of main.cpp), the model was invoked,
and the response is not the 500 Internal Server Error envelope the spec
requires. -/
theorem c1_inference_failure_answers_200 :
    postClassifyText (fun _ _ => 7) (fun _ => Except.error ()) []
        (fun w => w) (some (JsonVal.obj [("text", JsonVal.str "hello")])) =
      ({ status := 200,
         body := RespBody.predictionData (some 7) "" none none },
       { hashedText := some "hello",
         forwardInput := some (List.replicate 295 0) }) ∧
    (postClassifyText (fun _ _ => 7) (fun _ => Except.error ()) []
        (fun w => w)
        (some (JsonVal.obj [("text", JsonVal.str "hello")]))).1.status ≠ 500 := by
  constructor
  · rfl
  · decide

/-- C2 counterexample: the body consisting of a valid JSON object without
a text field. The claim demands a 400 Bad Request response, but the
handler answers 500 Internal Server Error (the bracket access of the
missing field throws into the outer catch). -/
theorem c2_missing_text_field_answers_500 :
    (postClassifyText (fun _ _ => 0) (fun _ => Except.error ()) []
        (fun w => w) (some (JsonVal.obj [("other", JsonVal.str "x")]))).1 =
      { status := 500, body := RespBody.envelope 500 "Internal Server Error" } ∧
    (postClassifyText (fun _ _ => 0) (fun _ => Except.error ()) []
        (fun w => w)
        (some (JsonVal.obj [("other", JsonVal.str "x")]))).1.status ≠ 400 := by
  constructor
  · rfl
  · decide

/-- C2 amended: a POST body that is absent or not valid JSON gets the 400
Bad Request envelope, while a body that is valid JSON but without a string
text field gets the 500 Internal Server Error envelope; in both cases the
classification pipeline (fingerprint hashing, preprocessing, model
inference) is never invoked. -/
theorem c2_request_validation_amended (hash : XXHash64Fn)
    (forward : ModelForward) (vocab : List (String × Int))
    (stem : String → String) :
    postClassifyText hash forward vocab stem none =
      ({ status := 400, body := RespBody.envelope 400 "Bad Request" },
       { hashedText := none, forwardInput := none }) ∧
    ∀ v : JsonVal, extractTextField v = none →
      postClassifyText hash forward vocab stem (some v) =
        ({ status := 500, body := RespBody.envelope 500 "Internal Server Error" },
         { hashedText := none, forwardInput := none }) := by
  refine ⟨rfl, fun v hv => ?_⟩
  simp [postClassifyText, hv]

theorem c2_request_validation_amended_witness :
    extractTextField (JsonVal.obj []) = none ∧
    postClassifyText (fun _ _ => 0) (fun _ => Except.error ()) []
        (fun w => w) (some (JsonVal.obj [])) =
      ({ status := 500, body := RespBody.envelope 500 "Internal Server Error" },
       { hashedText := none, forwardInput := none }) :=
  ⟨rfl,
   (c2_request_validation_amended (fun _ _ => 0) (fun _ => Except.error ())
       [] (fun w => w)).2 (JsonVal.obj []) rfl⟩

theorem c4_unknown_word_maps_to_zero_witness :
    (splitWords "zz qq")[0]? = some "zz" ∧ 0 < 2 ∧
    lookupVocab [("ab", 5)] ((fun w => w) (asciiLower "zz")) = none ∧
    (tokenizeText [("ab", 5)] (fun w => w) "zz qq" 2)[0]? = some 0 :=
  ⟨rfl, by decide, rfl,
   c4_unknown_word_maps_to_zero [("ab", 5)] (fun w => w) "zz qq" 2 0 "zz"
     rfl (by decide) rfl⟩

theorem c5_truncation_keeps_first_tokens_witness :
    (splitWords "a b c").length > 2 ∧
    tokenizeText [] (fun w => w) "a b c" 2 =
      preprocessWords [] (fun w => w) ((splitWords "a b c").take 2) 2 :=
  ⟨by decide,
   c5_truncation_keeps_first_tokens [] (fun w => w) "a b c" 2 (by decide)⟩

theorem c6_short_input_right_padded_witness :
    (splitWords "a").length < 3 ∧
    tokenizeText [] (fun w => w) "a" 3 =
      (splitWords "a").map (wordId [] (fun w => w)) ++
        List.replicate (3 - (splitWords "a").length) 0 :=
  ⟨by decide,
   c6_short_input_right_padded [] (fun w => w) "a" 3 (by decide)⟩

theorem c10_prefix_compatible_lengths_witness :
    1 ≤ 3 ∧
    tokenizeText [] (fun w => w) "a b c" 1 =
      (tokenizeText [] (fun w => w) "a b c" 3).take 1 :=
  ⟨by decide,
   c10_prefix_compatible_lengths [] (fun w => w) "a b c" 1 3 (by decide)⟩
